import Mathlib

/-!
Shallow embedding of the authentication / authorization slice of the
application: the login route, the registration and administrative
user-add routes, the `requireRole` middleware, and the session-cookie
configuration.  Each definition is a direct translation of the
corresponding JavaScript (Express + knex) source.
-/

/-- A row of the `users` table: `id`, `username`, `password`, `level`. -/
structure User where
  id : Nat
  username : String
  password : String
  level : String
deriving Repr, DecidableEq

/-- The `users` table, as the sequence of its rows. -/
abbrev Db := List User

/-- The snapshot stored in `req.session.user` at login:
`{ id, username, level }`. -/
structure SessionUser where
  id : Nat
  username : String
  level : String
deriving Repr, DecidableEq

/-- The observable response an Express handler produces:
`res.redirect(path)`, `req.flash(kind, message)` followed by a redirect,
`res.status(status).render(view, \x7b error_message \x7d)`,
`res.send(body)`, or falling through to `next()`. -/
inductive Response where
  | redirect (path : String)
  | flashRedirect (kind : String) (message : String) (path : String)
  | render (status : Nat) (view : String) (errorMessage : String)
  | send (body : String)
  | next
deriving Repr, DecidableEq

/-- The generic login failure flash message used by `POST /login`:
`"Invalid username or password."`. -/
def invalidCredentialsMessage : String := "Invalid username or password."

/-- The forbidden message used by `requireRole`:
`"You are not authorized to view that page."`. -/
def forbiddenMessage : String := "You are not authorized to view that page."

/-- `db("users").where({ username }).first()`: the first row whose
`username` column equals the given username. -/
def findUser (db : Db) (username : String) : Option User :=
  db.find? (fun u => u.username == username)

/-- `db("users").where({ id: uid }).update({ password: newPw })`:
replace the `password` column of every row whose `id` is `uid`. -/
def updateUserPassword (db : Db) (uid : Nat) (newPw : String) : Db :=
  db.map (fun u => if u.id == uid then { u with password := newPw } else u)

/-- `s.startsWith("$2")`: the characters `$2` are an initial segment of
`s` (the bcrypt hash marker check of the login route, at the character
level). -/
def startsWithHashMarker (s : String) : Bool :=
  "$2".data.isPrefixOf s.data

/-- Modelled from the spec: `bcrypt.hash(password, 10)` of the external
bcrypt library (not part of the repository).  Per the spec, hashed
credentials are "detectable by a fixed marker prefix": the model emits
the `$2b$10$` marker followed by a value derived from the password. -/
def bcryptHash (password : String) : String := "$2b$10$" ++ password

/-- Modelled from the spec: `bcrypt.compare(password, hash)` of the
external bcrypt library — succeeds exactly when `hash` is the hash of
`password`. -/
def bcryptCompare (password hash : String) : Bool := hash == bcryptHash password

/-- The `isValidPassword` computation of `POST /login`: bcrypt
comparison when the stored password is truthy and carries the `$2`
marker, direct string comparison otherwise. -/
def passwordValid (u : User) (password : String) : Bool :=
  if u.password != "" && startsWithHashMarker u.password then
    bcryptCompare password u.password
  else
    u.password == password

/-- The outcome of `POST /login`: the response sent, the `users` table
afterwards, and `req.session.user` afterwards. -/
structure LoginResult where
  response : Response
  users : Db
  sessionUser : Option SessionUser
deriving Repr, DecidableEq

/-- `POST /login`.  `updateOk` injects the fate of the re-hash `update`
write: when it is `false` the write throws, and control transfers to the
route's `catch` block (`res.send("Login error")`), leaving the table and
the session as they were.  All other steps are modelled as succeeding. -/
def postLogin (updateOk : Bool) (db : Db) (session : Option SessionUser)
    (username password : String) : LoginResult :=
  match findUser db username with
  | none =>
    ⟨.flashRedirect "error" invalidCredentialsMessage "/login", db, session⟩
  | some user =>
    if user.password != "" && startsWithHashMarker user.password then
      if bcryptCompare password user.password then
        ⟨.redirect "/landing", db, some ⟨user.id, user.username, user.level⟩⟩
      else
        ⟨.flashRedirect "error" invalidCredentialsMessage "/login", db, session⟩
    else
      if user.password == password then
        if updateOk then
          ⟨.redirect "/landing", updateUserPassword db user.id (bcryptHash password),
            some ⟨user.id, user.username, user.level⟩⟩
        else
          ⟨.send "Login error", db, session⟩
      else
        ⟨.flashRedirect "error" invalidCredentialsMessage "/login", db, session⟩

/-- The middleware returned by `requireRole(levels)`, as a function of
the allowed levels and the session user (`req.session.user`). -/
def requireRole (levels : List String) (session : Option SessionUser) : Response :=
  match session with
  | none => .redirect "/login"
  | some u =>
    if levels.contains u.level then .next
    else .render 403 "auth/login" forbiddenMessage

/-- The record handed to `db("users").insert(...)` by the registration
and user-add routes (`id` is assigned by the database). -/
structure NewUser where
  username : String
  password : String
  level : String
deriving Repr, DecidableEq

/-- The registration form body (`req.body`); `level` stands for any
extra submitted field, which the route never reads. -/
structure RegisterForm where
  username : String
  password : String
  level : String
deriving Repr, DecidableEq

/-- The fate of `db("users").insert(...)`: success, or a thrown database
error carrying `dbErr.code`. -/
inductive InsertOutcome where
  | ok
  | err (code : String)
deriving Repr, DecidableEq

/-- The outcome of a route that may insert a user: the response and the
record inserted (when the insert was reached and succeeded). -/
structure InsertRouteResult where
  response : Response
  inserted : Option NewUser
deriving Repr, DecidableEq

/-- `POST /create-account`: hard-codes `level = "U"`, requires both
fields, hashes the password, inserts, and maps a `23505`
unique-violation code to the distinct duplicate-username message. -/
def postCreateAccount (outcome : InsertOutcome) (form : RegisterForm) :
    InsertRouteResult :=
  if form.username == "" || form.password == "" then
    ⟨.render 400 "auth/create-account" "Username and password are required.", none⟩
  else
    match outcome with
    | .ok => ⟨.redirect "/login", some ⟨form.username, bcryptHash form.password, "U"⟩⟩
    | .err code =>
      if code == "23505" then
        ⟨.flashRedirect "error" "Username is already taken." "/create-account", none⟩
      else
        ⟨.flashRedirect "error" "Unable to save user. Please try again." "/create-account", none⟩

/-- The administrative add-user form body (`req.body`). -/
structure AddUserForm where
  username : String
  password : String
  confirmPassword : String
  level : String
deriving Repr, DecidableEq

/-- `POST /addUser` (users router): requires both fields and a matching
confirmation, hashes the password, inserts with the submitted `level`,
and answers every insert error with the same generic flash message. -/
def postAddUser (outcome : InsertOutcome) (form : AddUserForm) :
    InsertRouteResult :=
  if form.username == "" || form.password == "" then
    ⟨.flashRedirect "error" "Username and password are required." "/addUser", none⟩
  else if form.password != form.confirmPassword then
    ⟨.flashRedirect "error" "Passwords do not match." "/addUser", none⟩
  else
    match outcome with
    | .ok =>
      ⟨.flashRedirect "success" "User created." "/users",
        some ⟨form.username, bcryptHash form.password, form.level⟩⟩
    | .err _ =>
      ⟨.flashRedirect "error" "Unable to save user. Please try again." "/addUser", none⟩

/-- The cookie attributes of the session middleware configuration. -/
structure CookieConfig where
  httpOnly : Bool
  sameSite : String
  secure : Bool
deriving Repr, DecidableEq

/-- The `cookie` block of `src/config/session.js`, as a function of
`process.env.NODE_ENV`. -/
def sessionCookie (nodeEnv : String) : CookieConfig :=
  { httpOnly := true, sameSite := "lax", secure := nodeEnv == "production" }

/-! ## Helper lemmas -/

/-- The bcrypt model's output always carries the `$2` marker. -/
theorem bcryptHash_hasMarker (p : String) :
    startsWithHashMarker (bcryptHash p) = true := by
  unfold startsWithHashMarker bcryptHash
  rw [String.data_append]
  simp [List.isPrefixOf]

/-- A string carrying the `$2` marker is nonempty. -/
theorem hasMarker_ne_empty (s : String) (h : startsWithHashMarker s = true) :
    s ≠ "" := by
  intro he
  subst he
  simp [startsWithHashMarker] at h

/-! ## Claims -/

/-- C2: for every session user whose level is not in the allowed set,
`requireRole` produces the 403 forbidden render — never a redirect — and
its body message is distinct from the login page's generic error. -/
theorem requireRole_wrongLevel_forbidden (levels : List String) (u : SessionUser)
    (h : levels.contains u.level = false) :
    requireRole levels (some u) = .render 403 "auth/login" forbiddenMessage ∧
    (∀ p, requireRole levels (some u) ≠ .redirect p) ∧
    forbiddenMessage ≠ invalidCredentialsMessage := by
  have h' : u.level ∉ levels := by simpa using h
  refine ⟨?_, ?_, by decide⟩
  · simp [requireRole, h']
  · intro p hc
    simp [requireRole, h'] at hc

/-- Witness for C2 at a concrete member-level session and a
manager-only allowed set. -/
theorem requireRole_wrongLevel_forbidden_witness :
    requireRole ["M"] (some ⟨7, "carol", "U"⟩) =
      .render 403 "auth/login" forbiddenMessage :=
  (requireRole_wrongLevel_forbidden ["M"] ⟨7, "carol", "U"⟩ (by decide)).1

/-- C3: with no session user, `requireRole` always redirects to the
login page and never produces the forbidden render: the authentication
check comes first. -/
theorem requireRole_noSession_redirect (levels : List String) :
    requireRole levels none = .redirect "/login" ∧
    (∀ s v m, requireRole levels none ≠ .render s v m) := by
  refine ⟨rfl, ?_⟩
  intro s v m hc
  simp [requireRole] at hc

/-- C8: the session cookie is httpOnly, sameSite lax, and secure exactly
when `NODE_ENV` is `"production"`. -/
theorem sessionCookie_attributes (nodeEnv : String) :
    (sessionCookie nodeEnv).httpOnly = true ∧
    (sessionCookie nodeEnv).sameSite = "lax" ∧
    ((sessionCookie nodeEnv).secure = true ↔ nodeEnv = "production") := by
  refine ⟨rfl, rfl, ?_⟩
  simp [sessionCookie]

/-- Updating a password by id does not change which row a username
lookup finds — only that row's password field. -/
theorem findUser_updateUserPassword (db : Db) (uid : Nat) (npw uname : String) :
    findUser (updateUserPassword db uid npw) uname =
      (findUser db uname).map
        (fun u => if u.id == uid then { u with password := npw } else u) := by
  have hpf : ((fun u : User => u.username == uname) ∘
      (fun u : User => if u.id == uid then { u with password := npw } else u)) =
      (fun u : User => u.username == uname) := by
    funext u
    by_cases hid : u.id = uid <;> simp [hid]
  unfold findUser updateUserPassword
  rw [List.find?_map, hpf]

/-- C4: an unknown username and a known username with a wrong password
produce the same generic login failure response. -/
theorem login_failures_indistinguishable (updateOk : Bool) (db : Db)
    (session : Option SessionUser) (u1 p1 u2 p2 : String) (usr : User)
    (h1 : findUser db u1 = none)
    (h2 : findUser db u2 = some usr)
    (h3 : passwordValid usr p2 = false) :
    (postLogin updateOk db session u1 p1).response =
      (postLogin updateOk db session u2 p2).response ∧
    (postLogin updateOk db session u1 p1).response =
      .flashRedirect "error" invalidCredentialsMessage "/login" := by
  have e1 : (postLogin updateOk db session u1 p1).response =
      .flashRedirect "error" invalidCredentialsMessage "/login" := by
    simp [postLogin, h1]
  have e2 : (postLogin updateOk db session u2 p2).response =
      .flashRedirect "error" invalidCredentialsMessage "/login" := by
    unfold passwordValid at h3
    cases hc : (usr.password != "" && startsWithHashMarker usr.password) with
    | true =>
      simp only [hc, if_true] at h3
      simp [postLogin, h2, hc, h3]
    | false =>
      simp only [hc, Bool.false_eq_true, if_false] at h3
      simp [postLogin, h2, hc, h3]
  exact ⟨e1.trans e2.symm, e1⟩

/-- Witness for C4: in a one-user table, the response for an unknown
username equals the response for the known username with a wrong
password. -/
theorem login_failures_indistinguishable_witness :
    (postLogin true [⟨1, "alice", bcryptHash "hunter2", "U"⟩] none "bob" "x").response =
      (postLogin true [⟨1, "alice", bcryptHash "hunter2", "U"⟩] none
        "alice" "wrong").response :=
  (login_failures_indistinguishable true [⟨1, "alice", bcryptHash "hunter2", "U"⟩]
    none "bob" "x" "alice" "wrong" ⟨1, "alice", bcryptHash "hunter2", "U"⟩
    (by decide) (by decide) (by decide)).1

/-- C5: a correct-password login against a legacy plaintext credential
succeeds, and the stored password is replaced by a hashed value that
carries the hash marker and differs from the plaintext. -/
theorem legacy_login_upgrades (db : Db) (session : Option SessionUser)
    (uname p : String) (usr : User)
    (h1 : findUser db uname = some usr)
    (h2 : startsWithHashMarker usr.password = false)
    (h3 : usr.password = p) :
    (postLogin true db session uname p).response = .redirect "/landing" ∧
    (postLogin true db session uname p).sessionUser =
      some ⟨usr.id, usr.username, usr.level⟩ ∧
    findUser (postLogin true db session uname p).users uname =
      some { usr with password := bcryptHash p } ∧
    startsWithHashMarker (bcryptHash p) = true ∧
    bcryptHash p ≠ p := by
  have hcond : (usr.password != "" && startsWithHashMarker usr.password) = false := by
    simp [h2]
  have hr : postLogin true db session uname p =
      ⟨.redirect "/landing", updateUserPassword db usr.id (bcryptHash p),
        some ⟨usr.id, usr.username, usr.level⟩⟩ := by
    simp only [postLogin, h1]
    rw [hcond]
    simp [h3]
  refine ⟨by rw [hr], by rw [hr], ?_, bcryptHash_hasMarker p, ?_⟩
  · rw [hr]
    simp only [findUser_updateUserPassword]
    rw [show (findUser db uname) = some usr from h1]
    simp
  · intro he
    have hm := bcryptHash_hasMarker p
    rw [he, ← h3] at hm
    rw [h2] at hm
    exact Bool.false_ne_true hm

/-- Witness for C5: the spec's scenario — alice with stored plaintext
"hunter2" logs in with the correct password and is redirected to the
landing page. -/
theorem legacy_login_upgrades_witness :
    (postLogin true [⟨1, "alice", "hunter2", "U"⟩] none "alice" "hunter2").response =
      .redirect "/landing" :=
  (legacy_login_upgrades [⟨1, "alice", "hunter2", "U"⟩] none "alice" "hunter2"
    ⟨1, "alice", "hunter2", "U"⟩ (by decide) (by decide) rfl).1

/-- C6: a correct-password login against an already-hashed credential
succeeds and leaves the users table unchanged. -/
theorem hashed_login_no_write (updateOk : Bool) (db : Db)
    (session : Option SessionUser) (uname p : String) (usr : User)
    (h1 : findUser db uname = some usr)
    (h2 : startsWithHashMarker usr.password = true)
    (h3 : bcryptCompare p usr.password = true) :
    (postLogin updateOk db session uname p).response = .redirect "/landing" ∧
    (postLogin updateOk db session uname p).users = db ∧
    (postLogin updateOk db session uname p).sessionUser =
      some ⟨usr.id, usr.username, usr.level⟩ := by
  have hne : (usr.password != "") = true := by
    simpa using hasMarker_ne_empty usr.password h2
  have hcond : (usr.password != "" && startsWithHashMarker usr.password) = true := by
    simp [hne, h2]
  simp only [postLogin, h1]
  rw [hcond]
  simp [h3]

/-- Witness for C6 at a table whose single row stores a hashed
credential. -/
theorem hashed_login_no_write_witness :
    (postLogin true [⟨1, "alice", bcryptHash "hunter2", "U"⟩] none
      "alice" "hunter2").users = [⟨1, "alice", bcryptHash "hunter2", "U"⟩] :=
  (hashed_login_no_write true [⟨1, "alice", bcryptHash "hunter2", "U"⟩] none
    "alice" "hunter2" ⟨1, "alice", bcryptHash "hunter2", "U"⟩
    (by decide) (by decide) (by decide)).2.1

/-- C10: a failed login (unknown username, or wrong password against a
hashed credential) leaves both the users table and the session
unchanged. -/
theorem failed_login_no_effects (updateOk : Bool) (db : Db)
    (session : Option SessionUser) (uname p : String)
    (h : findUser db uname = none ∨
      ∃ usr, findUser db uname = some usr ∧
        startsWithHashMarker usr.password = true ∧
        bcryptCompare p usr.password = false) :
    (postLogin updateOk db session uname p).users = db ∧
    (postLogin updateOk db session uname p).sessionUser = session := by
  rcases h with h1 | ⟨usr, h1, h2, h3⟩
  · simp [postLogin, h1]
  · have hne : (usr.password != "") = true := by
      simpa using hasMarker_ne_empty usr.password h2
    have hcond : (usr.password != "" && startsWithHashMarker usr.password) = true := by
      simp [hne, h2]
    simp only [postLogin, h1]
    rw [hcond]
    simp [h3]

/-- Witness for C10: an unknown username against a one-user table. -/
theorem failed_login_no_effects_witness :
    (postLogin true [⟨1, "alice", bcryptHash "hunter2", "U"⟩] none
      "bob" "x").users = [⟨1, "alice", bcryptHash "hunter2", "U"⟩] :=
  (failed_login_no_effects true [⟨1, "alice", bcryptHash "hunter2", "U"⟩] none
    "bob" "x" (Or.inl (by decide))).1

/-- C1 counterexample: with alice's credential stored as legacy
plaintext "hunter2" and a correct-password login, a failing re-hash
write yields the catch-all "Login error" body — not the success
redirect.  The upgrade's failure does affect the login response. -/
theorem upgrade_failure_fails_login_cex :
    (postLogin false [⟨1, "alice", "hunter2", "U"⟩] none "alice" "hunter2").response =
      .send "Login error" ∧
    (postLogin false [⟨1, "alice", "hunter2", "U"⟩] none "alice" "hunter2").response ≠
      .redirect "/landing" := by
  exact ⟨by decide, by decide⟩

/-- C1 amended: when the re-hash-and-persist write fails during a
correct-password login against a legacy plaintext credential, the
exception reaches the route's catch-all handler: the response is the
generic "Login error" body, the session user is not set, and the users
table is unchanged. -/
theorem upgrade_failure_propagates (db : Db) (session : Option SessionUser)
    (uname p : String) (usr : User)
    (h1 : findUser db uname = some usr)
    (h2 : startsWithHashMarker usr.password = false)
    (h3 : usr.password = p) :
    (postLogin false db session uname p).response = .send "Login error" ∧
    (postLogin false db session uname p).users = db ∧
    (postLogin false db session uname p).sessionUser = session := by
  have hcond : (usr.password != "" && startsWithHashMarker usr.password) = false := by
    simp [h2]
  simp only [postLogin, h1]
  rw [hcond]
  simp [h3]

/-- Witness for the amended C1 at the concrete failing scenario. -/
theorem upgrade_failure_propagates_witness :
    (postLogin false [⟨1, "alice", "hunter2", "U"⟩] none "alice" "hunter2").users =
      [⟨1, "alice", "hunter2", "U"⟩] :=
  (upgrade_failure_propagates [⟨1, "alice", "hunter2", "U"⟩] none "alice" "hunter2"
    ⟨1, "alice", "hunter2", "U"⟩ (by decide) (by decide) rfl).2.1

/-- C7 counterexample: the administrative add-user route answers a
unique-constraint violation (code 23505) with the same generic message
as any other insert error — not a distinct duplicate-username
message. -/
theorem addUser_duplicate_generic_cex :
    (postAddUser (.err "23505") ⟨"bob", "pw", "pw", "U"⟩).response =
      .flashRedirect "error" "Unable to save user. Please try again." "/addUser" ∧
    (postAddUser (.err "23505") ⟨"bob", "pw", "pw", "U"⟩).response =
      (postAddUser (.err "99999") ⟨"bob", "pw", "pw", "U"⟩).response := by
  exact ⟨by decide, by decide⟩

/-- C7 amended: only the public registration route surfaces the 23505
unique-violation as the distinct "Username is already taken." message;
the administrative add-user route answers every insert error, the
unique violation included, with the generic "Unable to save user"
message. -/
theorem duplicate_username_surfacing (form : RegisterForm) (aform : AddUserForm)
    (h1 : (form.username == "") = false) (h2 : (form.password == "") = false)
    (h3 : (aform.username == "") = false) (h4 : (aform.password == "") = false)
    (h5 : aform.password = aform.confirmPassword) :
    (postCreateAccount (.err "23505") form).response =
      .flashRedirect "error" "Username is already taken." "/create-account" ∧
    "Username is already taken." ≠ "Unable to save user. Please try again." ∧
    ∀ code, (postAddUser (.err code) aform).response =
      .flashRedirect "error" "Unable to save user. Please try again." "/addUser" := by
  refine ⟨?_, by decide, ?_⟩
  · simp [postCreateAccount, h1, h2]
  · intro code
    have h4' : (aform.confirmPassword == "") = false := by
      rw [← h5]; exact h4
    simp [postAddUser, h3, h4, h5, h4']

/-- Witness for the amended C7 at concrete registration and add-user
forms. -/
theorem duplicate_username_surfacing_witness :
    (postCreateAccount (.err "23505") ⟨"bob", "pw", "U"⟩).response =
      .flashRedirect "error" "Username is already taken." "/create-account" :=
  (duplicate_username_surfacing ⟨"bob", "pw", "U"⟩ ⟨"bob", "pw", "pw", "U"⟩
    (by decide) (by decide) (by decide) (by decide) rfl).1

/-- C9: whatever the submitted form holds, a record inserted by the
public create-account route has level "U". -/
theorem createAccount_level_always_U (outcome : InsertOutcome)
    (form : RegisterForm) (nu : NewUser)
    (h : (postCreateAccount outcome form).inserted = some nu) :
    nu.level = "U" := by
  unfold postCreateAccount at h
  split at h
  · simp at h
  · split at h
    · simp only [Option.some.injEq] at h
      rw [← h]
    · split at h
      · simp at h
      · simp at h

/-- Witness for C9: a form submitting level "M" still yields an
inserted record with level "U". -/
theorem createAccount_level_always_U_witness :
    (postCreateAccount .ok ⟨"mallory", "pw", "M"⟩).inserted =
      some ⟨"mallory", bcryptHash "pw", "U"⟩ ∧
    NewUser.level ⟨"mallory", bcryptHash "pw", "U"⟩ = "U" :=
  ⟨by decide, createAccount_level_always_U .ok ⟨"mallory", "pw", "M"⟩
    ⟨"mallory", bcryptHash "pw", "U"⟩ (by decide)⟩
